import Mathlib

/-!
Shallow embedding of the slc-whatsapp-chatbot dispatch pipeline.

Source files embedded:
  * `src/telegram/telegram.service.ts` (TelegramService: processWebhookUpdate,
    handleStartCommand, handleTextMessage, handleImageGeneration,
    handleVoiceMessage, handleCallbackQuery, getServiceInfo)
  * `src/whatsapp/whatsapp/whatsapp.controller.ts` (WhatsappController:
    whatsappVerificationChallenge, handleIncomingWhatsappMessage, getServiceInfo)
  * `src/telegram/telegram.controller.ts` (thin webhook wrapper)

Backend adapter services (openai.service, stabilityai.service, audio.service,
whatsapp.service, user-context.service) are not present in the repository
snapshot; they are treated as oracles (`Backends`), except the two pieces of
logic the claims need (`saveToContext`, `generateAIResponse`), which are
modelled from the specification and marked as such in their doc comments.

Every handler is embedded as a pure function threading a `Trace`: the ordered
list of outbound channel actions performed so far, the context-store log, and
the list of backend adapter calls made.  A `Bool` (or `CallResult`) component
records whether a JavaScript exception escaped the function.
-/

namespace SlcBot

/-- Result of awaiting a backend adapter call: either it returned a value or it
threw an exception. -/
inductive CallResult (α : Type) where
  | returns (a : α)
  | throws
deriving Repr, DecidableEq

/-- The status-tagged shape (`status` of `success` with `data`, or `error`) returned by the
audio service (`convertAudioToText`, `convertTextToSpeech`) and by
`whatsAppService.downloadMedia`. -/
inductive StatusData where
  | success (data : String)
  | error
deriving Repr, DecidableEq

/-- Value returned by `stabilityaiService.textToImage`: either an array of image
paths (`Array.isArray(response)` holds) or a non-array error object. -/
inductive ImgResponse where
  | arr (paths : List String)
  | errObj
deriving Repr, DecidableEq

/-- Oracles for the backend adapter services whose sources are external to the
dispatch pipeline.  Each is a deterministic function of its request; `throws`
models the promise rejecting. -/
structure Backends where
  textToImage : String → CallResult ImgResponse
  convertAudioToText : String → CallResult StatusData
  convertTextToSpeech : String → CallResult StatusData
  downloadMedia : String → CallResult StatusData
  /-- The text-completion backend used inside `generateAIResponse` (the real
  adapter also receives the stored context; the claims never depend on that,
  so the oracle is keyed by user id and latest user text). -/
  completion : String → String → CallResult String

/-- Context entry role. -/
inductive Role where
  | user
  | assistant
deriving Repr, DecidableEq

/-- One record of the context store: `(userId, role, text)` in append order. -/
structure CtxRecord where
  userId : String
  role : Role
  text : String
deriving Repr, DecidableEq

/-- Execution trace of one handler run, over channel-action type `A`. -/
structure Trace (A : Type) where
  actions : List A
  ctx : List CtxRecord
  imgCalls : List String
  sttCalls : List String
  ttsCalls : List String
  dlCalls : List String
  aiCalls : List (String × String)
deriving Repr, DecidableEq

/-- The empty trace. -/
def Trace.empty {A : Type} : Trace A := ⟨[], [], [], [], [], [], []⟩

/-- Append one channel action.  The index of the action in `actions` serves as
the platform message id of the message it sends (used by `deleteMessage` and
`editMessageText`). -/
def Trace.emit {A : Type} (t : Trace A) (a : A) : Trace A :=
  { t with actions := t.actions ++ [a] }

/-- Modelled from the spec: `UserContextService.saveToContext(text, role,
userId)` (source file absent from the snapshot) appends one `(role, text)`
entry to the per-user ordered history, never reordering or deduplicating. -/
def saveToContext {A : Type} (t : Trace A) (text : String) (role : Role)
    (userId : String) : Trace A :=
  { t with ctx := t.ctx ++ [⟨userId, role, text⟩] }

/-- Modelled from the spec: `OpenaiService.generateAIResponse(userId, text)`
(source file absent from the snapshot).  Per the plain-text path of the spec it
appends `(role=user, text)` to the context, calls the Text-Completion backend,
and on success appends `(role=assistant, response)` and returns the response;
the user entry is recorded even if the backend call fails. -/
def generateAIResponse {A : Type} (b : Backends) (userId text : String)
    (t : Trace A) : Trace A × CallResult String :=
  let t := saveToContext t text .user userId
  let t := { t with aiCalls := t.aiCalls ++ [(userId, text)] }
  match b.completion userId text with
  | .throws => (t, .throws)
  | .returns r => (saveToContext t r .assistant userId, .returns r)

/-! ### String utilities mirroring the JavaScript string operations -/

/-- Case-insensitive "does `s` start with the (lowercase) pattern `pat`". -/
def startsWithCI : List Char → List Char → Bool
  | [], _ => true
  | _ :: _, [] => false
  | p :: ps, c :: cs => p == c.toLower && startsWithCI ps cs

/-- Case-sensitive list-level "starts with". -/
def startsWithL : List Char → List Char → Bool
  | [], _ => true
  | _ :: _, [] => false
  | p :: ps, c :: cs => p == c && startsWithL ps cs

/-- Substring containment at the character-list level. -/
def containsSub (pat : List Char) : List Char → Bool
  | [] => startsWithL pat []
  | c :: cs => startsWithL pat (c :: cs) || containsSub pat cs

/-- `text.toLowerCase().includes("/imagine")` (lowercasing done at the
character level so the kernel can evaluate it). -/
def containsImagineCI (s : String) : Bool :=
  containsSub "/imagine".data (s.data.map Char.toLower)

/-- `s.startsWith(pre)` at the character-list level. -/
def jsStartsWith (s pre : String) : Bool :=
  startsWithL pre.data s.data

/-- `s.trim()`: strip whitespace from both ends. -/
def jsTrim (s : String) : String :=
  (((s.data.dropWhile Char.isWhitespace).reverse.dropWhile
    Char.isWhitespace).reverse).asString

/-- Remove every case-insensitive occurrence of `pat` (given lowercase),
scanning left to right, non-overlapping — the semantics of the global
case-insensitive regex replace.  Fuel-driven recursion; each step consumes at
least one character, so `fuel = s.length` suffices. -/
def stripCI (pat : List Char) : Nat → List Char → List Char
  | 0, s => s
  | _ + 1, [] => []
  | fuel + 1, c :: cs =>
    if startsWithCI pat (c :: cs) then
      stripCI pat fuel (List.drop (pat.length - 1) cs)
    else
      c :: stripCI pat fuel cs

/-- `text.replace` of the global case-insensitive `/imagine` regex by the empty string. -/
def stripImagine (s : String) : String :=
  (stripCI "/imagine".data s.data.length s.data).asString

/-- Case-sensitive variant of `stripCI`, for the WhatsApp controller
`text.replaceAll(imageGenerationCommand, "")`. -/
def stripCS (pat : List Char) : Nat → List Char → List Char
  | 0, s => s
  | _ + 1, [] => []
  | fuel + 1, c :: cs =>
    if startsWithL pat (c :: cs) then
      stripCS pat fuel (List.drop (pat.length - 1) cs)
    else
      c :: stripCS pat fuel cs

/-- `text.replaceAll("/imagine", "")` (case-sensitive, all occurrences). -/
def removeImagine (s : String) : String :=
  (stripCS "/imagine".data s.data.length s.data).asString

/-! ### Canonical outbound actions -/

/-- Telegram channel actions performed by `TelegramService` via `this.bot`.
Message ids handed back by `sendMessage` are modelled as the index of the
action in the action list of the trace. -/
inductive TgAction where
  | sendMessage (chatId : Nat) (text : String) (replyTo : Option Nat)
  | sendPhoto (chatId : Nat) (url : String) (caption : String)
  | sendVoice (chatId : Nat) (url : String) (replyTo : Option Nat)
  | deleteMessage (chatId : Nat) (msgId : Nat)
  | editMessageText (chatId : Nat) (msgId : Nat) (text : String)
  | sendChatAction (chatId : Nat) (action : String)
  | answerCallbackQuery (queryId : String)
deriving Repr, DecidableEq

/-- WhatsApp channel actions performed by `WhatsappController` through
`whatsAppService` (and, for the interactive service-info reply, through the
raw HTTP client of the service). -/
inductive WaAction where
  | markMessageAsRead (messageId : String)
  | sendWhatsAppMessage (dest text replyId : String)
  | sendImageByUrl (dest : String) (url : Option String) (replyId : String)
  | sendAudioByUrl (dest url : String)
  | sendMoreOptionsMessage (dest : String)
  | postServiceInfo (dest body : String)
deriving Repr, DecidableEq

/-- A Telegram trace. -/
abbrev TgTrace := Trace TgAction

/-- A WhatsApp trace. -/
abbrev WaTrace := Trace WaAction

/-- User-visible final state of a Telegram chat message: after deletes and
edits are applied to the raw action list. -/
inductive TgVisible where
  | text (chatId : Nat) (body : String)
  | photo (chatId : Nat) (url caption : String)
  | voice (chatId : Nat) (url : String)
deriving Repr, DecidableEq

/-- Is message id `i` deleted somewhere in the action list? -/
def deletedAt (acts : List TgAction) (i : Nat) : Bool :=
  acts.any fun a =>
    match a with
    | .deleteMessage _ j => j == i
    | _ => false

/-- The last `editMessageText` targeting message id `i`, if any. -/
def lastEditOf (acts : List TgAction) (i : Nat) : Option String :=
  acts.foldl
    (fun acc a =>
      match a with
      | .editMessageText _ j s => if j == i then some s else acc
      | _ => acc)
    none

/-- The Telegram messages still visible to the user once every
`deleteMessage` and `editMessageText` in the trace has been applied. -/
def visibleMessages (acts : List TgAction) : List TgVisible :=
  acts.enum.filterMap fun p =>
    if deletedAt acts p.1 then none
    else
      match p.2 with
      | .sendMessage c s _ => some (.text c ((lastEditOf acts p.1).getD s))
      | .sendPhoto c u cap => some (.photo c u cap)
      | .sendVoice c u _ => some (.voice c u)
      | _ => none

end SlcBot

namespace SlcBot

/-! ### Telegram inbound model (telegram.service.ts) -/

/-- The fields of a Telegram `update.message` that `TelegramService` reads. -/
structure TgMessage where
  chatId : Nat
  fromId : Nat
  firstName : Option String
  messageId : Nat
  text : Option String
  voice : Option String
deriving Repr, DecidableEq

/-- The fields of a Telegram `update.callback_query` that the service reads. -/
structure TgCallbackQuery where
  queryId : String
  chatId : Nat
  fromId : Nat
  data : String
deriving Repr, DecidableEq

/-- A Telegram webhook update, as destructured by `processWebhookUpdate`. -/
inductive TgUpdate where
  | message (m : TgMessage)
  | callbackQuery (q : TgCallbackQuery)
  | other
deriving Repr, DecidableEq

/-- Stand-in for `process.env.SERVER_URL`. -/
def serverUrl : String := "SERVER_URL"

/-- Guidance message sent when the stripped image prompt is empty. -/
def imagineGuidance : String :=
  "🎨 Please provide a description for the image you want to generate.\n\nExample: \x60/imagine a beautiful sunset over mountains\x60"

/-- The ephemeral "generating" message. -/
def generatingMsg : String := "🎨 Generating your image... This may take a moment!"

/-- Failure notice for image generation. -/
def imageFailMsg : String := "❌ Failed to generate image. Please try again later."

/-- Caption attached to a generated photo. -/
def genCaption (prompt : String) : String :=
  "🎨 Generated: \"" ++ prompt ++ "\""

/-- The ephemeral "processing voice" message. -/
def processingVoiceMsg : String := "🎤 Processing your voice message..."

/-- Failure notice when transcription returns an error status. -/
def transcribeFailMsg : String := "❌ Failed to transcribe audio. Please try again."

/-- Failure notice sent by the catch-all of `handleVoiceMessage`. -/
def voiceFailMsg : String := "❌ Failed to process voice message. Please try again."

/-- Context entry recorded by `handleStartCommand`. -/
def startContextMsg : String :=
  "User started conversation with Studio Libra via Telegram"

/-- The welcome template literal (`msg.from.first_name || "there"`; the falsy
check means an empty first name also falls back to "there").  The inline
keyboard attached to this message is channel-adapter detail elided here. -/
def welcomeMessage (firstName : Option String) : String :=
  let name :=
    match firstName with
    | some s => if s = "" then "there" else s
    | none => "there"
  "\n🎨 *Welcome to Studio Libra!*\n\nHi " ++ name ++
    "! I\x27m your creative assistant. \n\nWhat would you like to explore today?\n    "

/-- Fallback acknowledgement shared by both `getServiceInfo` implementations. -/
def serviceFallback : String :=
  "Thank you for your interest! Please tell us more about what you are looking for."

/-- `telegram.service.ts` static text for `branding_service`. -/
def tgBrandingService : String :=
  "🎨 *Studio Libra Branding Services*\n\nWe deliver end-to-end branding solutions that make your business stand out:\n\n• *Logo Design* – Unique, memorable logos that capture your brand\x27s essence.\n• *Visual Identity* – Cohesive color schemes, typography, and visuals for recognition.\n• *Digital Printing* – High-quality prints: cards, brochures, banners, and more.\n• *Brand Strategy* – Clear brand messaging, positioning, and identity guidelines.\n• *Packaging Design* – Eye-catching packaging that boosts shelf appeal.\n• *Stationery Design* – Branded stationery that strengthens your professional image.\n• *Embroidery Branding* – Durable embroidery for uniforms, polos, overalls, and more.\n• *Sublimation Branding* – Vivid, long-lasting sublimation prints that won’t peel or fade.\n\n📩 *Contact us today at* info@studiolibracreatives.com"

/-- `telegram.service.ts` static text for `software_dev_service`. -/
def tgSoftwareDevService : String :=
  "💻 *Studio Libra Software Development*\n\nWe build high-performance software tailored to your business:\n\n• *Web Development* – Modern websites, web apps, and e-commerce solutions.\n• *Mobile Apps* – Native and cross-platform apps for iOS & Android.\n• *Custom Software* – Solutions that automate and optimize your operations.\n• *Backend Development* – Powerful APIs, databases, and cloud integration.\n• *UI/UX Development* – Engaging and intuitive user interfaces and experiences.\n• *Maintenance & Support* – Reliable updates, bug fixes, and improvements.\n\n📩 *Contact us today at* info@studiolibracreatives.com"

/-- `telegram.service.ts` static text for `models_service`. -/
def tgModelsService : String :=
  "🧠 *Studio Libra 3D Models & AI Services*\n\nWe create cutting-edge 3D models and AI solutions:\n• 3D character modeling\n• Product visualization\n• Architectural models\n• AI model customization\n• Digital twins\n\nWhat kind of model are you looking for?"

/-- `telegram.service.ts` static text for `illustrations_comics`. -/
def tgIllustrationsComics : String :=
  "✏️ *Studio Libra Illustrations & Comics*\n\nOur talented artists create:\n• Custom illustrations\n• Comic books & strips\n• Character design\n• Storyboards\n• Editorial illustrations\n• Children\x27s book art\n\nLet\x27s bring your story to life!"

/-- `telegram.service.ts` static text for `talk_to_human`. -/
def tgTalkToHuman : String :=
  "👋 *Talk to a Human*\n\nThanks for reaching out! A member of our team will get back to you shortly during our business hours.\n\nIf you have a specific question or project in mind, feel free to share some details while you wait."

/-- The value observed from `serviceInfo[serviceId] || fallback`: either a
string (an own text or the fallback) or a truthy non-string member inherited
from `Object.prototype` — JavaScript property access on an object literal
traverses the prototype chain before yielding `undefined`. -/
inductive JsLookup where
  | str (s : String)
  | protoMember (name : String)
deriving Repr, DecidableEq

/-- The member names every plain object literal inherits from
`Object.prototype`; each resolves to a function (or, for `__proto__`, an
object), hence a truthy value that defeats the `|| fallback`. -/
def objectPrototypeMemberNames : List String :=
  ["constructor", "hasOwnProperty", "isPrototypeOf", "propertyIsEnumerable",
   "toLocaleString", "toString", "valueOf", "__proto__", "__defineGetter__",
   "__defineSetter__", "__lookupGetter__", "__lookupSetter__"]

/-- The string the handlers carry for a resolved lookup.  Faithful whenever
the lookup yields a string, i.e. for every id outside
`objectPrototypeMemberNames`; for an inherited member the real program
forwards the non-string member itself, which the string-typed trace cannot
represent, so the member name stands in for it (no claim is proved about
handler output at those ids beyond parametric pass-through). -/
def JsLookup.text : JsLookup → String
  | .str s => s
  | .protoMember name => name

/-- Own keys of the `serviceInfo` object literal in
`TelegramService.getServiceInfo`. -/
def tgServiceInfoOwn (serviceId : String) : Option String :=
  if serviceId = "branding_service" then some tgBrandingService
  else if serviceId = "software_dev_service" then some tgSoftwareDevService
  else if serviceId = "models_service" then some tgModelsService
  else if serviceId = "illustrations_comics" then some tgIllustrationsComics
  else if serviceId = "talk_to_human" then some tgTalkToHuman
  else none

/-- `TelegramService.getServiceInfo`: `serviceInfo[serviceId] || fallback`.
Property access finds an own key first, then the prototype chain: an id
naming an `Object.prototype` member yields that inherited truthy member, so
the fallback is returned only when the access yields `undefined`.  (All own
texts are non-empty, hence truthy.) -/
def tgGetServiceInfo (serviceId : String) : JsLookup :=
  match tgServiceInfoOwn serviceId with
  | some s => .str s
  | none =>
    if objectPrototypeMemberNames.contains serviceId then
      .protoMember serviceId
    else
      .str serviceFallback

/-! ### Telegram handlers -/

/-- `TelegramService.handleStartCommand`. -/
def handleStartCommand (m : TgMessage) (t : TgTrace) : TgTrace × Bool :=
  let t := saveToContext t startContextMsg .assistant (toString m.fromId)
  (t.emit (.sendMessage m.chatId (welcomeMessage m.firstName) none), false)

/-- `TelegramService.handleImageGeneration`.  The `Bool` result is true when a
JavaScript exception escapes (never: the adapter call is wrapped in
try/catch and the catch edits the loading message into the failure notice). -/
def handleImageGeneration (b : Backends) (chatId : Nat) (_userId text : String)
    (t : TgTrace) : TgTrace × Bool :=
  let prompt := jsTrim (stripImagine text)
  if prompt = "" then
    (t.emit (.sendMessage chatId imagineGuidance none), false)
  else
    let loadingId := t.actions.length
    let t := t.emit (.sendMessage chatId generatingMsg none)
    let t := { t with imgCalls := t.imgCalls ++ [prompt] }
    match b.textToImage prompt with
    | .throws =>
      (t.emit (.editMessageText chatId loadingId imageFailMsg), false)
    | .returns (.arr paths) =>
      if paths.length > 0 then
        let t := t.emit (.deleteMessage chatId loadingId)
        (t.emit (.sendPhoto chatId (serverUrl ++ "/" ++ paths.headD "")
          (genCaption prompt)), false)
      else
        (t.emit (.editMessageText chatId loadingId imageFailMsg), false)
    | .returns .errObj =>
      (t.emit (.editMessageText chatId loadingId imageFailMsg), false)

/-- `TelegramService.handleTextMessage` (the caller guarantees `text` is the
text of the message).  A completion failure inside `generateAIResponse` is not
caught here, so it escapes (`true`). -/
def handleTextMessage (b : Backends) (m : TgMessage) (text : String)
    (t : TgTrace) : TgTrace × Bool :=
  if containsImagineCI text then
    handleImageGeneration b m.chatId (toString m.fromId) text t
  else
    let t := t.emit (.sendChatAction m.chatId "typing")
    match generateAIResponse b (toString m.fromId) text t with
    | (t, .throws) => (t, true)
    | (t, .returns r) =>
      (t.emit (.sendMessage m.chatId r (some m.messageId)), false)

/-- `TelegramService.handleVoiceMessage`.  The whole body sits in a try/catch
whose catch sends `voiceFailMsg`; `getFile`/`saveVoiceFile` are modelled as
yielding the voice file id as the local path without failing. -/
def handleVoiceMessage (b : Backends) (m : TgMessage) (fileId : String)
    (t : TgTrace) : TgTrace × Bool :=
  let processingId := t.actions.length
  let t := t.emit (.sendMessage m.chatId processingVoiceMsg none)
  let t := { t with sttCalls := t.sttCalls ++ [fileId] }
  match b.convertAudioToText fileId with
  | .throws =>
    (t.emit (.sendMessage m.chatId voiceFailMsg none), false)
  | .returns .error =>
    (t.emit (.editMessageText m.chatId processingId transcribeFailMsg), false)
  | .returns (.success transcriptData) =>
    match generateAIResponse b (toString m.fromId) transcriptData t with
    | (t, .throws) =>
      (t.emit (.sendMessage m.chatId voiceFailMsg none), false)
    | (t, .returns aiResponse) =>
      let t := { t with ttsCalls := t.ttsCalls ++ [aiResponse] }
      match b.convertTextToSpeech aiResponse with
      | .throws =>
        (t.emit (.sendMessage m.chatId voiceFailMsg none), false)
      | .returns tts =>
        let t := t.emit (.deleteMessage m.chatId processingId)
        match tts with
        | .success d =>
          (t.emit (.sendVoice m.chatId (serverUrl ++ "/" ++ d)
            (some m.messageId)), false)
        | .error =>
          (t.emit (.sendMessage m.chatId aiResponse (some m.messageId)), false)

/-- `TelegramService.handleCallbackQuery`: answers the query, records the
selection (`query.data`, i.e. the selection id) as a user entry, resolves the
static service text, records it as an assistant entry, sends it. -/
def handleCallbackQuery (q : TgCallbackQuery) (t : TgTrace) : TgTrace × Bool :=
  let t := t.emit (.answerCallbackQuery q.queryId)
  let t := saveToContext t ("User selected: " ++ q.data) .user (toString q.fromId)
  let info := (tgGetServiceInfo q.data).text
  let t := saveToContext t info .assistant (toString q.fromId)
  (t.emit (.sendMessage q.chatId info none), false)

/-- The branch structure of `TelegramService.processWebhookUpdate` before its
try/catch: `/start` texts, then truthy (non-empty) non-slash texts, then
voice, else nothing (`msg.text && ...` makes the empty string fall
through). -/
def dispatchUpdate (b : Backends) (u : TgUpdate) (t : TgTrace) :
    TgTrace × Bool :=
  match u with
  | .message m =>
    match m.text with
    | some txt =>
      if jsStartsWith txt "/start" then handleStartCommand m t
      else if !(txt == "") && !jsStartsWith txt "/" then
        handleTextMessage b m txt t
      else
        match m.voice with
        | some fid => handleVoiceMessage b m fid t
        | none => (t, false)
    | none =>
      match m.voice with
      | some fid => handleVoiceMessage b m fid t
      | none => (t, false)
  | .callbackQuery q => handleCallbackQuery q t
  | .other => (t, false)

/-- `TelegramService.processWebhookUpdate`: the dispatch wrapped in a
try/catch that only logs, so no exception ever escapes it. -/
def processWebhookUpdate (b : Backends) (u : TgUpdate) (t : TgTrace) :
    TgTrace × Bool :=
  match dispatchUpdate b u t with
  | (t2, _) => (t2, false)

end SlcBot

namespace SlcBot

/-! ### WhatsApp controller (whatsapp.controller.ts) -/

/-- The message-kind tag and the per-kind fields the controller reads
(`message.type` with `text.body`, `interactive.type` +
`interactive.button_reply.id/title`, `audio.id`). -/
inductive WaKind where
  | text (body : String)
  | interactive (itype buttonId buttonTitle : String)
  | audio (audioId : String)
  | other (typeName : String)
deriving Repr, DecidableEq

/-- One entry of the `messages` array of the webhook payload. -/
structure WaMessage where
  sender : String
  id : String
  kind : WaKind
deriving Repr, DecidableEq

/-- The destructured webhook body:
`request?.entry?.[0]?.changes?.[0].value ?? \x7b\x7d` yields `messages` (absent →
early success return) and the profile name of the first contact (only logged). -/
structure WaRequest where
  messages : Option (List WaMessage)
  contactName : Option String
deriving Repr, DecidableEq

/-- `whatsapp.controller.ts` static text for `branding_service` (the file is
stored with mojibake emoji bytes, reproduced as-is). -/
def waBrandingService : String :=
  "üé® *Studio Libra Branding Services*\n\nWe create memorable brand identities that resonate with your audience. Our branding services include:\n‚Ä¢ Logo design\n‚Ä¢ Brand strategy\n‚Ä¢ Visual identity systems\n‚Ä¢ Brand guidelines\n‚Ä¢ Packaging design\n\nReady to elevate your brand? Let us know what you need!"

/-- `whatsapp.controller.ts` static text for `software_dev_service`. -/
def waSoftwareDevService : String :=
  "üíª *Studio Libra Software Development*\n\nWe build custom software solutions to power your business:\n‚Ä¢ Web applications\n‚Ä¢ Mobile apps\n‚Ä¢ E-commerce platforms\n‚Ä¢ AI integration\n‚Ä¢ API development\n‚Ä¢ Custom business software\n\nTell us about your project and we\x27ll help bring it to life!"

/-- `whatsapp.controller.ts` static text for `models_service`. -/
def waModelsService : String :=
  "üß† *Studio Libra 3D Models & AI Services*\n\nWe create cutting-edge 3D models and AI solutions:\n‚Ä¢ 3D character modeling\n‚Ä¢ Product visualization\n‚Ä¢ Architectural models\n‚Ä¢ AI model customization\n‚Ä¢ Digital twins\n\nWhat kind of model are you looking for?"

/-- `whatsapp.controller.ts` static text for `illustrations_comics`. -/
def waIllustrationsComics : String :=
  "‚úèÔ∏è *Studio Libra Illustrations & Comics*\n\nOur talented artists create:\n‚Ä¢ Custom illustrations\n‚Ä¢ Comic books & strips\n‚Ä¢ Character design\n‚Ä¢ Storyboards\n‚Ä¢ Editorial illustrations\n‚Ä¢ Children\x27s book art\n\nLet\x27s bring your story to life!"

/-- `whatsapp.controller.ts` static text for `talk_to_human`. -/
def waTalkToHuman : String :=
  "üëã *Talk to a Human*\n\nThanks for reaching out! A member of our team will get back to you shortly during our business hours.\n\nIf you have a specific question or project in mind, feel free to share some details while you wait."

/-- Own keys of the `serviceInfo` object literal in
`WhatsappController.getServiceInfo`. -/
def waServiceInfoOwn (serviceId : String) : Option String :=
  if serviceId = "branding_service" then some waBrandingService
  else if serviceId = "software_dev_service" then some waSoftwareDevService
  else if serviceId = "models_service" then some waModelsService
  else if serviceId = "illustrations_comics" then some waIllustrationsComics
  else if serviceId = "talk_to_human" then some waTalkToHuman
  else none

/-- `WhatsappController.getServiceInfo`: `serviceInfo[serviceId] || fallback`
with its own texts (all non-empty, hence truthy); as with the Telegram one,
ids naming `Object.prototype` members resolve to the inherited truthy member
through the prototype chain, not to the fallback. -/
def waGetServiceInfo (serviceId : String) : JsLookup :=
  match waServiceInfoOwn serviceId with
  | some s => .str s
  | none =>
    if objectPrototypeMemberNames.contains serviceId then
      .protoMember serviceId
    else
      .str serviceFallback

/-- The body of the `switch (message.type)` in
`handleIncomingWhatsappMessage`, run after `markMessageAsRead`.  The second
component is the HTTP return value of the controller (`status`, `message`) or
`throws` when an adapter exception escapes — the controller has no try/catch
of its own except the log-only one around the raw service-info post. -/
def waProcessMessage (b : Backends) (message : WaMessage) (t : WaTrace) :
    WaTrace × CallResult (String × String) :=
  let messageSender := message.sender
  let messageID := message.id
  match message.kind with
  | .text text =>
    if containsImagineCI text then
      let stripped := removeImagine text
      let t := { t with imgCalls := t.imgCalls ++ [stripped] }
      match b.textToImage stripped with
      | .throws => (t, .throws)
      | .returns (.arr paths) =>
        let t := t.emit (.sendImageByUrl messageSender paths.head? messageID)
        (t, .returns ("success", "Image generation processed"))
      | .returns .errObj =>
        (t, .returns ("success", "Image generation processed"))
    else
      let t := t.emit (.sendWhatsAppMessage messageSender text messageID)
      (t, .returns ("success", "Message processed"))
  | .interactive itype buttonId buttonText =>
    if itype = "button_reply" then
      let t := saveToContext t ("User selected: " ++ buttonText) .user
        messageSender
      if buttonId = "more_options" then
        (t.emit (.sendMoreOptionsMessage messageSender),
          .returns ("success", "Message processed"))
      else
        let serviceInfo := (waGetServiceInfo buttonId).text
        let t := saveToContext t serviceInfo .assistant messageSender
        let t := t.emit (.postServiceInfo messageSender serviceInfo)
        (t, .returns ("success", "Message processed"))
    else
      (t, .returns ("success", "Message processed"))
  | .audio audioId =>
    let t := { t with dlCalls := t.dlCalls ++ [audioId] }
    match b.downloadMedia audioId with
    | .throws => (t, .throws)
    | .returns .error => (t, .returns ("error", "Failed to download audio"))
    | .returns (.success mediaData) =>
      let t := { t with sttCalls := t.sttCalls ++ [mediaData] }
      match b.convertAudioToText mediaData with
      | .throws => (t, .throws)
      | .returns .error =>
        (t, .returns ("error", "Failed to transcribe audio"))
      | .returns (.success transcript) =>
        match generateAIResponse b messageSender transcript t with
        | (t, .throws) => (t, .throws)
        | (t, .returns aiResponse) =>
          let t := { t with ttsCalls := t.ttsCalls ++ [aiResponse] }
          match b.convertTextToSpeech aiResponse with
          | .throws => (t, .throws)
          | .returns .error =>
            (t, .returns ("error", "Failed to convert text to speech"))
          | .returns (.success audioPath) =>
            let t := t.emit (.sendAudioByUrl messageSender audioPath)
            (t, .returns ("success", "Message processed"))
  | .other _ => (t, .returns ("success", "Message processed"))

/-- `WhatsappController.handleIncomingWhatsappMessage`: missing `messages` →
early success; an empty `messages` array passes the JS truthiness check and
then `messages[0].from` throws a TypeError; otherwise only `messages[0]` is
marked as read and processed. -/
def handleIncomingWhatsappMessage (b : Backends) (req : WaRequest)
    (t : WaTrace) : WaTrace × CallResult (String × String) :=
  match req.messages with
  | none => (t, .returns ("success", "No messages to process"))
  | some [] => (t, .throws)
  | some (message :: _) =>
    waProcessMessage b message (t.emit (.markMessageAsRead message.id))

/-- JavaScript falsiness of an optional string query parameter / env var:
`undefined` and the empty string are falsy. -/
def jsFalsy : Option String → Bool
  | none => true
  | some s => s = ""

/-- `WhatsappController.whatsappVerificationChallenge(mode, challenge,
token)` with the configured
`WHATSAPP_CLOUD_API_WEBHOOK_VERIFICATION_TOKEN` as `verificationToken`;
returns the HTTP body (`none` models returning JS `undefined`). -/
def whatsappVerificationChallenge (verificationToken : Option String)
    (mode challenge token : Option String) : Option String :=
  if jsFalsy mode || jsFalsy token then
    some "Error: Missing Parameters"
  else if mode == some "subscribe" && token == verificationToken then
    challenge
  else
    some "Error: Token Mismatch"

end SlcBot

namespace SlcBot

/-! ### Concrete fixtures used by witnesses and counterexamples -/

/-- Backends where every adapter call succeeds. -/
def bAllOk : Backends :=
  ⟨fun _ => .returns (.arr ["img.png"]),
   fun _ => .returns (.success "the transcript"),
   fun _ => .returns (.success "speech.mp3"),
   fun _ => .returns (.success "media-bytes"),
   fun _ _ => .returns "ai-reply"⟩

/-- Backends whose image synthesis returns a non-array error object. -/
def bImgErr : Backends := { bAllOk with textToImage := fun _ => .returns .errObj }

/-- Backends whose image synthesis rejects (throws). -/
def bImgThrows : Backends := { bAllOk with textToImage := fun _ => .throws }

/-- Backends whose speech-to-text returns an error status. -/
def bSttErr : Backends :=
  { bAllOk with convertAudioToText := fun _ => .returns .error }

/-- Backends whose text-to-speech returns an error status. -/
def bTtsErr : Backends :=
  { bAllOk with convertTextToSpeech := fun _ => .returns .error }

/-- Backends whose text-completion backend rejects. -/
def bCompThrows : Backends :=
  { bAllOk with completion := fun _ _ => .throws }

/-- A Telegram text message fixture. -/
def tgMsg (txt : String) : TgMessage := ⟨100, 7, some "Ada", 55, some txt, none⟩

/-- A Telegram voice message fixture. -/
def tgVoiceMsg : TgMessage := ⟨100, 7, some "Ada", 55, none, some "voice-file-1"⟩

/-- A Telegram callback-query fixture for the branding button (whose label in
the start menu is "🎨 Branding" while its callback data is
`branding_service`). -/
def tgQuery : TgCallbackQuery := ⟨"cbq-1", 100, 7, "branding_service"⟩

/-- A WhatsApp text-message webhook fixture. -/
def waTextReq (body : String) : WaRequest :=
  ⟨some [⟨"15550001111", "wamid.1", .text body⟩], some "Ada"⟩

/-- A WhatsApp audio-message webhook fixture. -/
def waAudioReq : WaRequest :=
  ⟨some [⟨"15550001111", "wamid.2", .audio "audio-77"⟩], some "Ada"⟩

/-- A WhatsApp button-reply webhook fixture. -/
def waButtonReq (bid btitle : String) : WaRequest :=
  ⟨some [⟨"15550001111", "wamid.3", .interactive "button_reply" bid btitle⟩],
   some "Ada"⟩

/-- A WhatsApp payload carrying two messages. -/
def waTwoMsgReq : WaRequest :=
  ⟨some [⟨"15550001111", "wamid.1", .text "hello"⟩,
         ⟨"15550002222", "wamid.9", .text "world"⟩], some "Ada"⟩

/-- Recognizer for the mark-as-read action. -/
def isMarkRead : WaAction → Bool
  | .markMessageAsRead _ => true
  | _ => false

end SlcBot

namespace SlcBot

/-- Claim C1 is false as stated: on the inbound text "/imagine" (empty
stripped prompt) the WhatsApp handler does call the Image-Synthesis Adapter —
with the empty string — and emits no guidance message, while the Telegram
dispatcher drops the message entirely (slash-prefixed), emitting no guidance
message either. -/
theorem c1_counterexample :
    (handleIncomingWhatsappMessage bImgErr (waTextReq "/imagine")
        Trace.empty).1.imgCalls = [""]
    ∧ (handleIncomingWhatsappMessage bImgErr (waTextReq "/imagine")
        Trace.empty).1.actions = [.markMessageAsRead "wamid.1"]
    ∧ (processWebhookUpdate bImgErr (.message (tgMsg "/imagine"))
        Trace.empty).1.actions = [] := by
  refine ⟨?_, ?_, ?_⟩ <;> decide

/-- Claim C1 (amended): on the Telegram path, a text message that reaches the
text handler (text not starting with a slash) and contains the
image-generation token with an empty stripped-and-trimmed prompt yields
exactly one guidance TextMessage and no textToImage call; the WhatsApp
handler has no such guard. -/
theorem c1_empty_prompt_guidance (b : Backends) (m : TgMessage) (txt : String)
    (ht : m.text = some txt)
    (hstart : jsStartsWith txt "/start" = false)
    (hslash : jsStartsWith txt "/" = false)
    (hc : containsImagineCI txt = true)
    (hp : jsTrim (stripImagine txt) = "") :
    processWebhookUpdate b (.message m) Trace.empty =
      (Trace.empty.emit (.sendMessage m.chatId imagineGuidance none), false) := by
  have hne : ¬ txt = "" := by rintro rfl; revert hc; decide
  simp [processWebhookUpdate, dispatchUpdate, ht, hstart, hslash, hne,
    handleTextMessage, hc, handleImageGeneration, hp]

/-- Witness for C1 at the concrete input " /imagine   ". -/
theorem c1_empty_prompt_guidance_witness :
    processWebhookUpdate bImgErr (.message (tgMsg " /imagine   "))
        Trace.empty =
      (Trace.empty.emit (.sendMessage 100 imagineGuidance none), false) :=
  c1_empty_prompt_guidance bImgErr (tgMsg " /imagine   ") " /imagine   "
    rfl (by decide) (by decide) (by decide) (by decide)

/-- Claim C10: a Telegram update whose message text starts with a slash but
not with "/start" (and carries no voice payload) is dropped by the
dispatcher: no outbound action, no backend call, the context store
unchanged. -/
theorem c10_slash_commands_dropped (b : Backends) (m : TgMessage)
    (txt : String) (t : TgTrace)
    (ht : m.text = some txt)
    (hslash : jsStartsWith txt "/" = true)
    (hstart : jsStartsWith txt "/start" = false)
    (hv : m.voice = none) :
    processWebhookUpdate b (.message m) t = (t, false) := by
  simp [processWebhookUpdate, dispatchUpdate, ht, hslash, hstart, hv]

/-- Witness for C10 at the concrete input "/imagine a fox". -/
theorem c10_slash_commands_dropped_witness :
    processWebhookUpdate bAllOk (.message (tgMsg "/imagine a fox"))
        Trace.empty = (Trace.empty, false) :=
  c10_slash_commands_dropped bAllOk (tgMsg "/imagine a fox") "/imagine a fox"
    Trace.empty rfl (by decide) (by decide) rfl

end SlcBot

namespace SlcBot

/-- Claim C2 is false as stated: on Telegram the final ImageMessage caption is
the formatted string with the 🎨 prefix, not the prompt itself; and on
WhatsApp a failing image command emits no ephemeral message and no failure
TextMessage at all (zero replies rather than two). -/
theorem c2_counterexample :
    ((processWebhookUpdate bAllOk (.message (tgMsg " /imagine a fox"))
        Trace.empty).1.actions =
      [.sendMessage 100 generatingMsg none,
       .deleteMessage 100 0,
       .sendPhoto 100 "SERVER_URL/img.png" "🎨 Generated: \"a fox\""]
     ∧ "🎨 Generated: \"a fox\"" ≠ "a fox")
    ∧ (handleIncomingWhatsappMessage bImgErr (waTextReq "/imagine a fox")
        Trace.empty).1.actions = [.markMessageAsRead "wamid.1"] := by
  refine ⟨⟨?_, ?_⟩, ?_⟩ <;> decide

/-- Claim C2 (amended): on the Telegram text handler, a non-empty stripped
prompt always yields the ephemeral generating TextMessage followed by a final
reply — on success (non-empty array) the ephemeral is deleted and an
ImageMessage whose caption is the formatted string containing the prompt is
sent; on an empty array, a non-array result or a thrown adapter failure the
ephemeral is edited into the failure TextMessage.  (The WhatsApp handler
sends no ephemeral and no failure notice.) -/
theorem c2_image_two_replies (b : Backends) (m : TgMessage) (txt p : String)
    (ht : m.text = some txt)
    (hstart : jsStartsWith txt "/start" = false)
    (hslash : jsStartsWith txt "/" = false)
    (hc : containsImagineCI txt = true)
    (hp : jsTrim (stripImagine txt) = p)
    (hpne : p ≠ "") :
    (∀ u us, b.textToImage p = .returns (.arr (u :: us)) →
      (processWebhookUpdate b (.message m) Trace.empty).1.actions =
        [.sendMessage m.chatId generatingMsg none,
         .deleteMessage m.chatId 0,
         .sendPhoto m.chatId (serverUrl ++ "/" ++ u) (genCaption p)]
      ∧ visibleMessages
          (processWebhookUpdate b (.message m) Trace.empty).1.actions =
        [.photo m.chatId (serverUrl ++ "/" ++ u) (genCaption p)])
    ∧ ((b.textToImage p = .returns (.arr []) ∨
        b.textToImage p = .returns .errObj ∨
        b.textToImage p = .throws) →
      (processWebhookUpdate b (.message m) Trace.empty).1.actions =
        [.sendMessage m.chatId generatingMsg none,
         .editMessageText m.chatId 0 imageFailMsg]
      ∧ visibleMessages
          (processWebhookUpdate b (.message m) Trace.empty).1.actions =
        [.text m.chatId imageFailMsg]) := by
  have hne : ¬ txt = "" := by rintro rfl; revert hc; decide
  constructor
  · intro u us hb
    simp [processWebhookUpdate, dispatchUpdate, ht, hstart, hslash, hne,
      handleTextMessage, hc, handleImageGeneration, hp, hpne, hb,
      Trace.emit, Trace.empty, visibleMessages, deletedAt, lastEditOf,
      List.enum, List.enumFrom]
  · rintro (hb | hb | hb) <;>
      simp [processWebhookUpdate, dispatchUpdate, ht, hstart, hslash, hne,
        handleTextMessage, hc, handleImageGeneration, hp, hpne, hb,
        Trace.emit, Trace.empty, visibleMessages, deletedAt, lastEditOf,
        List.enum, List.enumFrom]

/-- Witness for C2 at the concrete input " /imagine a fox" with an
all-success backend. -/
theorem c2_image_two_replies_witness :
    (∀ u us, bAllOk.textToImage "a fox" = .returns (.arr (u :: us)) →
      (processWebhookUpdate bAllOk (.message (tgMsg " /imagine a fox"))
          Trace.empty).1.actions =
        [.sendMessage 100 generatingMsg none,
         .deleteMessage 100 0,
         .sendPhoto 100 (serverUrl ++ "/" ++ u) (genCaption "a fox")]
      ∧ visibleMessages
          (processWebhookUpdate bAllOk (.message (tgMsg " /imagine a fox"))
            Trace.empty).1.actions =
        [.photo 100 (serverUrl ++ "/" ++ u) (genCaption "a fox")])
    ∧ ((bAllOk.textToImage "a fox" = .returns (.arr []) ∨
        bAllOk.textToImage "a fox" = .returns .errObj ∨
        bAllOk.textToImage "a fox" = .throws) →
      (processWebhookUpdate bAllOk (.message (tgMsg " /imagine a fox"))
          Trace.empty).1.actions =
        [.sendMessage 100 generatingMsg none,
         .editMessageText 100 0 imageFailMsg]
      ∧ visibleMessages
          (processWebhookUpdate bAllOk (.message (tgMsg " /imagine a fox"))
            Trace.empty).1.actions =
        [.text 100 imageFailMsg]) :=
  c2_image_two_replies bAllOk (tgMsg " /imagine a fox") " /imagine a fox"
    "a fox" rfl (by decide) (by decide) (by decide) (by decide) (by decide)

end SlcBot

namespace SlcBot

/-- Claim C3 is false as stated: on the WhatsApp audio path a
transcription success followed by a synthesis failure produces no reply at
all (the handler returns an error response to the webhook caller instead of
messaging the user), although the context does record the transcript and the
generated reply. -/
theorem c3_counterexample :
    (handleIncomingWhatsappMessage bTtsErr waAudioReq Trace.empty).1.actions =
      [.markMessageAsRead "wamid.2"]
    ∧ (handleIncomingWhatsappMessage bTtsErr waAudioReq Trace.empty).2 =
      .returns ("error", "Failed to convert text to speech")
    ∧ (handleIncomingWhatsappMessage bTtsErr waAudioReq Trace.empty).1.ctx =
      [⟨"15550001111", .user, "the transcript"⟩,
       ⟨"15550001111", .assistant, "ai-reply"⟩] := by
  refine ⟨?_, ?_, ?_⟩ <;> decide

/-- Claim C3 (amended): on the Telegram voice path, transcription success
plus synthesis failure yields exactly one visible plain-text reply carrying
the generated reply text (the processing placeholder is deleted, no
AudioMessage is sent), and the context records the transcript as a user
entry and the reply as an assistant entry. -/
theorem c3_tts_failure_plaintext (b : Backends) (m : TgMessage)
    (fid transcript reply : String)
    (htxt : m.text = none) (hv : m.voice = some fid)
    (hstt : b.convertAudioToText fid = .returns (.success transcript))
    (hai : b.completion (toString m.fromId) transcript = .returns reply)
    (htts : b.convertTextToSpeech reply = .returns .error) :
    (processWebhookUpdate b (.message m) Trace.empty).1.actions =
      [.sendMessage m.chatId processingVoiceMsg none,
       .deleteMessage m.chatId 0,
       .sendMessage m.chatId reply (some m.messageId)]
    ∧ visibleMessages
        (processWebhookUpdate b (.message m) Trace.empty).1.actions =
      [.text m.chatId reply]
    ∧ (processWebhookUpdate b (.message m) Trace.empty).1.ctx =
      [⟨toString m.fromId, .user, transcript⟩,
       ⟨toString m.fromId, .assistant, reply⟩] := by
  refine ⟨?_, ?_, ?_⟩ <;>
    simp [processWebhookUpdate, dispatchUpdate, htxt, hv, handleVoiceMessage,
      generateAIResponse, saveToContext, hstt, hai, htts,
      Trace.emit, Trace.empty, visibleMessages, deletedAt, lastEditOf,
      List.enum, List.enumFrom]

/-- Witness for C3 on a concrete Telegram voice message with a
synthesis-failing backend. -/
theorem c3_tts_failure_plaintext_witness :
    (processWebhookUpdate bTtsErr (.message tgVoiceMsg) Trace.empty).1.actions =
      [.sendMessage 100 processingVoiceMsg none,
       .deleteMessage 100 0,
       .sendMessage 100 "ai-reply" (some 55)]
    ∧ visibleMessages
        (processWebhookUpdate bTtsErr (.message tgVoiceMsg)
          Trace.empty).1.actions =
      [.text 100 "ai-reply"]
    ∧ (processWebhookUpdate bTtsErr (.message tgVoiceMsg) Trace.empty).1.ctx =
      [⟨"7", .user, "the transcript"⟩, ⟨"7", .assistant, "ai-reply"⟩] :=
  c3_tts_failure_plaintext bTtsErr tgVoiceMsg "voice-file-1" "the transcript"
    "ai-reply" rfl rfl rfl rfl rfl

/-- Claim C4 is false as stated: on the WhatsApp audio path a transcription
failure produces no user-visible failure reply (only an error HTTP response
to the webhook caller) — though, as claimed, the Text-Completion Adapter is
never called. -/
theorem c4_counterexample :
    (handleIncomingWhatsappMessage bSttErr waAudioReq Trace.empty).1.actions =
      [.markMessageAsRead "wamid.2"]
    ∧ (handleIncomingWhatsappMessage bSttErr waAudioReq Trace.empty).1.aiCalls
      = []
    ∧ (handleIncomingWhatsappMessage bSttErr waAudioReq Trace.empty).2 =
      .returns ("error", "Failed to transcribe audio") := by
  refine ⟨?_, ?_, ?_⟩ <;> decide

/-- Claim C4 (amended): a transcription failure never reaches the
Text-Completion Adapter on either channel; on Telegram it yields exactly one
visible failure reply (the processing placeholder edited into the failure
text), while on WhatsApp it yields no user-visible reply, only an error
webhook response. -/
theorem c4_stt_failure_no_completion (b : Backends) (m : TgMessage)
    (fid : String)
    (htxt : m.text = none) (hv : m.voice = some fid)
    (hstt : b.convertAudioToText fid = .returns .error) :
    (processWebhookUpdate b (.message m) Trace.empty).1.actions =
      [.sendMessage m.chatId processingVoiceMsg none,
       .editMessageText m.chatId 0 transcribeFailMsg]
    ∧ visibleMessages
        (processWebhookUpdate b (.message m) Trace.empty).1.actions =
      [.text m.chatId transcribeFailMsg]
    ∧ (processWebhookUpdate b (.message m) Trace.empty).1.aiCalls = []
    ∧ (∀ (wm : WaMessage) (aid media : String) (t : WaTrace),
        wm.kind = .audio aid →
        b.downloadMedia aid = .returns (.success media) →
        b.convertAudioToText media = .returns .error →
        (waProcessMessage b wm t).1.actions = t.actions
        ∧ (waProcessMessage b wm t).1.aiCalls = t.aiCalls
        ∧ (waProcessMessage b wm t).2 =
          .returns ("error", "Failed to transcribe audio")) := by
  refine ⟨?_, ?_, ?_, ?_⟩
  · simp [processWebhookUpdate, dispatchUpdate, htxt, hv, handleVoiceMessage,
      hstt, Trace.emit, Trace.empty]
  · simp [processWebhookUpdate, dispatchUpdate, htxt, hv, handleVoiceMessage,
      hstt, Trace.emit, Trace.empty, visibleMessages, deletedAt, lastEditOf,
      List.enum, List.enumFrom]
  · simp [processWebhookUpdate, dispatchUpdate, htxt, hv, handleVoiceMessage,
      hstt, Trace.emit, Trace.empty]
  · intro wm aid media t hk hdl hstt2
    refine ⟨?_, ?_, ?_⟩ <;> simp [waProcessMessage, hk, hdl, hstt2]

/-- Witness for C4 on a concrete voice message for both channels with a
transcription-failing backend. -/
theorem c4_stt_failure_no_completion_witness :
    (processWebhookUpdate bSttErr (.message tgVoiceMsg) Trace.empty).1.actions =
      [.sendMessage 100 processingVoiceMsg none,
       .editMessageText 100 0 transcribeFailMsg]
    ∧ visibleMessages
        (processWebhookUpdate bSttErr (.message tgVoiceMsg)
          Trace.empty).1.actions =
      [.text 100 transcribeFailMsg]
    ∧ (processWebhookUpdate bSttErr (.message tgVoiceMsg) Trace.empty).1.aiCalls
      = []
    ∧ (∀ (wm : WaMessage) (aid media : String) (t : WaTrace),
        wm.kind = .audio aid →
        bSttErr.downloadMedia aid = .returns (.success media) →
        bSttErr.convertAudioToText media = .returns .error →
        (waProcessMessage bSttErr wm t).1.actions = t.actions
        ∧ (waProcessMessage bSttErr wm t).1.aiCalls = t.aiCalls
        ∧ (waProcessMessage bSttErr wm t).2 =
          .returns ("error", "Failed to transcribe audio")) :=
  c4_stt_failure_no_completion bSttErr tgVoiceMsg "voice-file-1" rfl rfl rfl

end SlcBot

namespace SlcBot

/-- Claim C5 is false as stated: the Telegram callback handler records
"User selected: " followed by the callback data (the selection id), not the
button label — for the branding button the stored entry differs from the one
the claim requires; and on WhatsApp the `more_options` button produces a menu
reply with no assistant-role service-information entry at all. -/
theorem c5_counterexample :
    ((processWebhookUpdate bAllOk (.callbackQuery tgQuery)
        Trace.empty).1.ctx.head?.map CtxRecord.text =
      some "User selected: branding_service"
     ∧ "User selected: branding_service" ≠ "User selected: 🎨 Branding")
    ∧ ((handleIncomingWhatsappMessage bAllOk
          (waButtonReq "more_options" "More Options") Trace.empty).1.ctx =
        [⟨"15550001111", .user, "User selected: More Options"⟩]
       ∧ (handleIncomingWhatsappMessage bAllOk
            (waButtonReq "more_options" "More Options") Trace.empty).1.actions =
        [.markMessageAsRead "wamid.3",
         .sendMoreOptionsMessage "15550001111"]) := by
  refine ⟨⟨?_, ?_⟩, ?_, ?_⟩ <;> decide

/-- Claim C5 (amended): on Telegram the user-role entry is
"User selected: " concatenated with the selection id (the callback data, the
label not being read), followed by one assistant-role entry with the resolved
service text and one TextMessage carrying it; on WhatsApp a button reply
records "User selected: " with the button label, and for ids other than
`more_options` appends the assistant entry and sends the service text, while
`more_options` sends the options menu without an assistant entry. -/
theorem c5_interactive_selection (b : Backends) (q : TgCallbackQuery)
    (wm : WaMessage) (bid btitle : String)
    (hk : wm.kind = .interactive "button_reply" bid btitle) :
    ((processWebhookUpdate b (.callbackQuery q) Trace.empty).1.ctx =
      [⟨toString q.fromId, .user, "User selected: " ++ q.data⟩,
       ⟨toString q.fromId, .assistant, (tgGetServiceInfo q.data).text⟩]
     ∧ (processWebhookUpdate b (.callbackQuery q) Trace.empty).1.actions =
      [.answerCallbackQuery q.queryId,
       .sendMessage q.chatId (tgGetServiceInfo q.data).text none])
    ∧ (bid ≠ "more_options" →
        (waProcessMessage b wm Trace.empty).1.ctx =
          [⟨wm.sender, .user, "User selected: " ++ btitle⟩,
           ⟨wm.sender, .assistant, (waGetServiceInfo bid).text⟩]
        ∧ (waProcessMessage b wm Trace.empty).1.actions =
          [.postServiceInfo wm.sender (waGetServiceInfo bid).text])
    ∧ (bid = "more_options" →
        (waProcessMessage b wm Trace.empty).1.ctx =
          [⟨wm.sender, .user, "User selected: " ++ btitle⟩]
        ∧ (waProcessMessage b wm Trace.empty).1.actions =
          [.sendMoreOptionsMessage wm.sender]) := by
  refine ⟨⟨?_, ?_⟩, fun hbid => ?_, fun hbid => ?_⟩
  · simp [processWebhookUpdate, dispatchUpdate, handleCallbackQuery,
      saveToContext, Trace.emit, Trace.empty]
  · simp [processWebhookUpdate, dispatchUpdate, handleCallbackQuery,
      saveToContext, Trace.emit, Trace.empty]
  · refine ⟨?_, ?_⟩ <;>
      simp [waProcessMessage, hk, hbid, saveToContext, Trace.emit, Trace.empty]
  · refine ⟨?_, ?_⟩ <;>
      simp [waProcessMessage, hk, hbid, saveToContext, Trace.emit, Trace.empty]

/-- Witness for C5 at the branding callback and a concrete WhatsApp button
reply. -/
theorem c5_interactive_selection_witness :
    ((processWebhookUpdate bAllOk (.callbackQuery tgQuery) Trace.empty).1.ctx =
      [⟨"7", .user, "User selected: branding_service"⟩,
       ⟨"7", .assistant, (tgGetServiceInfo "branding_service").text⟩]
     ∧ (processWebhookUpdate bAllOk (.callbackQuery tgQuery)
          Trace.empty).1.actions =
      [.answerCallbackQuery "cbq-1",
       .sendMessage 100 (tgGetServiceInfo "branding_service").text none])
    ∧ ("talk_to_human" ≠ "more_options" →
        (waProcessMessage bAllOk
            ⟨"15550001111", "wamid.3",
             .interactive "button_reply" "talk_to_human" "👋 Talk to Human"⟩
            Trace.empty).1.ctx =
          [⟨"15550001111", .user, "User selected: 👋 Talk to Human"⟩,
           ⟨"15550001111", .assistant, (waGetServiceInfo "talk_to_human").text⟩]
        ∧ (waProcessMessage bAllOk
            ⟨"15550001111", "wamid.3",
             .interactive "button_reply" "talk_to_human" "👋 Talk to Human"⟩
            Trace.empty).1.actions =
          [.postServiceInfo "15550001111" (waGetServiceInfo "talk_to_human").text])
    ∧ ("talk_to_human" = "more_options" →
        (waProcessMessage bAllOk
            ⟨"15550001111", "wamid.3",
             .interactive "button_reply" "talk_to_human" "👋 Talk to Human"⟩
            Trace.empty).1.ctx =
          [⟨"15550001111", .user, "User selected: 👋 Talk to Human"⟩]
        ∧ (waProcessMessage bAllOk
            ⟨"15550001111", "wamid.3",
             .interactive "button_reply" "talk_to_human" "👋 Talk to Human"⟩
            Trace.empty).1.actions =
          [.sendMoreOptionsMessage "15550001111"]) :=
  c5_interactive_selection bAllOk tgQuery
    ⟨"15550001111", "wamid.3",
     .interactive "button_reply" "talk_to_human" "👋 Talk to Human"⟩
    "talk_to_human" "👋 Talk to Human" rfl

/-- Claim C6 is false as stated: the unknown selection id "constructor" does
not resolve to the fallback acknowledgement in either controller — property
access finds the inherited `Object.prototype.constructor`, a truthy
non-string member, which defeats the falsy fallback. -/
theorem c6_counterexample :
    tgGetServiceInfo "constructor" = .protoMember "constructor"
    ∧ waGetServiceInfo "constructor" = .protoMember "constructor"
    ∧ tgGetServiceInfo "constructor" ≠ .str serviceFallback
    ∧ waGetServiceInfo "constructor" ≠ .str serviceFallback := by
  refine ⟨?_, ?_, ?_, ?_⟩ <;> decide

/-- Claim C6 (amended): both resolvers return the fixed fallback
acknowledgement, verbatim, for every unknown id that does not name an
`Object.prototype` member; each of the five known ids returns its own static
text; and an unknown id that does name an `Object.prototype` member returns
that inherited member — a truthy non-string value — instead of the
fallback. -/
theorem c6_service_info_resolution (id : String)
    (h1 : id ≠ "branding_service") (h2 : id ≠ "software_dev_service")
    (h3 : id ≠ "models_service") (h4 : id ≠ "illustrations_comics")
    (h5 : id ≠ "talk_to_human")
    (hp : objectPrototypeMemberNames.contains id = false) :
    (tgGetServiceInfo id = .str serviceFallback
     ∧ waGetServiceInfo id = .str serviceFallback)
    ∧ (tgGetServiceInfo "branding_service" = .str tgBrandingService
       ∧ tgGetServiceInfo "software_dev_service" = .str tgSoftwareDevService
       ∧ tgGetServiceInfo "models_service" = .str tgModelsService
       ∧ tgGetServiceInfo "illustrations_comics" = .str tgIllustrationsComics
       ∧ tgGetServiceInfo "talk_to_human" = .str tgTalkToHuman)
    ∧ (waGetServiceInfo "branding_service" = .str waBrandingService
       ∧ waGetServiceInfo "software_dev_service" = .str waSoftwareDevService
       ∧ waGetServiceInfo "models_service" = .str waModelsService
       ∧ waGetServiceInfo "illustrations_comics" = .str waIllustrationsComics
       ∧ waGetServiceInfo "talk_to_human" = .str waTalkToHuman)
    ∧ (∀ pid, objectPrototypeMemberNames.contains pid = true →
        tgGetServiceInfo pid = .protoMember pid
        ∧ waGetServiceInfo pid = .protoMember pid) := by
  have hp2 : id ∉ objectPrototypeMemberNames := by simpa using hp
  refine ⟨⟨?_, ?_⟩, ⟨rfl, rfl, rfl, rfl, rfl⟩, ⟨rfl, rfl, rfl, rfl, rfl⟩, ?_⟩
  · simp [tgGetServiceInfo, tgServiceInfoOwn, h1, h2, h3, h4, h5, hp, hp2]
  · simp [waGetServiceInfo, waServiceInfoOwn, h1, h2, h3, h4, h5, hp, hp2]
  · intro pid hpid
    have hpid2 : pid ∈ objectPrototypeMemberNames := by simpa using hpid
    simp only [objectPrototypeMemberNames, List.mem_cons,
      List.not_mem_nil, or_false] at hpid2
    rcases hpid2 with rfl | rfl | rfl | rfl | rfl | rfl | rfl | rfl | rfl |
      rfl | rfl | rfl <;> exact ⟨by decide, by decide⟩

/-- Witness for C6 at the unknown non-prototype id "unknown_service". -/
theorem c6_service_info_resolution_witness :
    (tgGetServiceInfo "unknown_service" = .str serviceFallback
     ∧ waGetServiceInfo "unknown_service" = .str serviceFallback)
    ∧ (tgGetServiceInfo "branding_service" = .str tgBrandingService
       ∧ tgGetServiceInfo "software_dev_service" = .str tgSoftwareDevService
       ∧ tgGetServiceInfo "models_service" = .str tgModelsService
       ∧ tgGetServiceInfo "illustrations_comics" = .str tgIllustrationsComics
       ∧ tgGetServiceInfo "talk_to_human" = .str tgTalkToHuman)
    ∧ (waGetServiceInfo "branding_service" = .str waBrandingService
       ∧ waGetServiceInfo "software_dev_service" = .str waSoftwareDevService
       ∧ waGetServiceInfo "models_service" = .str waModelsService
       ∧ waGetServiceInfo "illustrations_comics" = .str waIllustrationsComics
       ∧ waGetServiceInfo "talk_to_human" = .str waTalkToHuman)
    ∧ (∀ pid, objectPrototypeMemberNames.contains pid = true →
        tgGetServiceInfo pid = .protoMember pid
        ∧ waGetServiceInfo pid = .protoMember pid) :=
  c6_service_info_resolution "unknown_service" (by decide) (by decide)
    (by decide) (by decide) (by decide) (by decide)

/-- Claim C7 is false as stated: in the WhatsApp handler a thrown
Image-Synthesis failure propagates out of the handler (the controller has no
try/catch), and no fallback reply is emitted. -/
theorem c7_counterexample :
    (handleIncomingWhatsappMessage bImgThrows (waTextReq "/imagine a fox")
        Trace.empty).2 = .throws
    ∧ (handleIncomingWhatsappMessage bImgThrows (waTextReq "/imagine a fox")
        Trace.empty).1.actions = [.markMessageAsRead "wamid.1"] := by
  refine ⟨?_, ?_⟩ <;> decide

/-- Claim C7 (amended): on Telegram no exception propagates past the
dispatcher `processWebhookUpdate` — its catch-all swallows every handler
failure (though it only logs, without emitting a fallback reply), and the
inner dispatch really can throw, as a rejecting text-completion backend
shows; the WhatsApp controller has no such boundary. -/
theorem c7_telegram_error_boundary :
    (∀ (b : Backends) (u : TgUpdate) (t : TgTrace),
      (processWebhookUpdate b u t).2 = false)
    ∧ (∃ (b : Backends) (u : TgUpdate),
        (dispatchUpdate b u Trace.empty).2 = true) := by
  constructor
  · intro b u t
    rcases h : dispatchUpdate b u t with ⟨t2, fl⟩
    simp [processWebhookUpdate, h]
  · exact ⟨bCompThrows, .message (tgMsg "hello"), by decide⟩

end SlcBot

namespace SlcBot

/-- Claim C8: with a non-empty configured verification token and a challenge
value distinct from the two error strings, the GET verification endpoint
returns the challenge exactly when the mode is "subscribe" and the supplied
token equals the configured one; in every other case (missing parameters
included) it returns one of the two error strings. -/
theorem c8_verification_challenge (cfg mode challenge token : Option String)
    (v c : String)
    (hcfg : cfg = some v) (hv : v ≠ "") (hch : challenge = some c)
    (hc1 : c ≠ "Error: Missing Parameters")
    (hc2 : c ≠ "Error: Token Mismatch") :
    (whatsappVerificationChallenge cfg mode challenge token = challenge ↔
      (mode = some "subscribe" ∧ token = cfg))
    ∧ (whatsappVerificationChallenge cfg mode challenge token = challenge
       ∨ whatsappVerificationChallenge cfg mode challenge token =
         some "Error: Missing Parameters"
       ∨ whatsappVerificationChallenge cfg mode challenge token =
         some "Error: Token Mismatch") := by
  subst hcfg; subst hch
  unfold whatsappVerificationChallenge
  rcases mode with _ | ms
  · simp [jsFalsy, Ne.symm hc1]
  · rcases token with _ | ts
    · simp [jsFalsy, Ne.symm hc1]
    · by_cases hms : ms = ""
      · subst hms
        simp [jsFalsy, Ne.symm hc1]
      · by_cases hts : ts = ""
        · subst hts
          simp [jsFalsy, hms, Ne.symm hc1, Ne.symm hv]
        · by_cases hsub : ms = "subscribe"
          · by_cases htok : ts = v
            · subst hsub; subst htok
              simp [jsFalsy, hts]
            · subst hsub
              simp [jsFalsy, hts, htok, Ne.symm hc2]
          · simp [jsFalsy, hms, hts, hsub, Ne.symm hc2]

/-- Witness for C8: a successful verification round-trip at concrete
parameters. -/
theorem c8_verification_challenge_witness :
    (whatsappVerificationChallenge (some "sekrit") (some "subscribe")
        (some "challenge-123") (some "sekrit") = some "challenge-123" ↔
      (some "subscribe" = some "subscribe"
       ∧ some "sekrit" = some "sekrit"))
    ∧ (whatsappVerificationChallenge (some "sekrit") (some "subscribe")
        (some "challenge-123") (some "sekrit") = some "challenge-123"
       ∨ whatsappVerificationChallenge (some "sekrit") (some "subscribe")
         (some "challenge-123") (some "sekrit") =
         some "Error: Missing Parameters"
       ∨ whatsappVerificationChallenge (some "sekrit") (some "subscribe")
         (some "challenge-123") (some "sekrit") =
         some "Error: Token Mismatch") :=
  c8_verification_challenge (some "sekrit") (some "subscribe")
    (some "challenge-123") (some "sekrit") "sekrit" "challenge-123"
    rfl (by decide) rfl (by decide) (by decide)

/-- The switch of the WhatsApp controller only ever appends non-mark-read
actions to the trace: the single `markMessageAsRead` precedes it. -/
theorem waProcess_actions_no_markRead (b : Backends) (m : WaMessage)
    (t : WaTrace) :
    ∃ l, (waProcessMessage b m t).1.actions = t.actions ++ l
      ∧ l.filter isMarkRead = [] := by
  rcases m with ⟨sender, mid, kind⟩
  rcases kind with body | ⟨itype, bid, btitle⟩ | aid | tname
  · by_cases hc : containsImagineCI body
    · rcases hb : b.textToImage (removeImagine body) with ⟨r⟩ | _
      · rcases r with paths | _
        · exact ⟨[.sendImageByUrl sender paths.head? mid],
            by simp [waProcessMessage, hc, hb, Trace.emit],
            by simp [isMarkRead]⟩
        · exact ⟨[], by simp [waProcessMessage, hc, hb], by simp⟩
      · exact ⟨[], by simp [waProcessMessage, hc, hb], by simp⟩
    · exact ⟨[.sendWhatsAppMessage sender body mid],
        by simp [waProcessMessage, hc, Trace.emit], by simp [isMarkRead]⟩
  · by_cases hi : itype = "button_reply"
    · by_cases hbo : bid = "more_options"
      · exact ⟨[.sendMoreOptionsMessage sender],
          by simp [waProcessMessage, hi, hbo, saveToContext, Trace.emit],
          by simp [isMarkRead]⟩
      · exact ⟨[.postServiceInfo sender (waGetServiceInfo bid).text],
          by simp [waProcessMessage, hi, hbo, saveToContext, Trace.emit],
          by simp [isMarkRead]⟩
    · exact ⟨[], by simp [waProcessMessage, hi], by simp⟩
  · rcases hd : b.downloadMedia aid with ⟨rd⟩ | _
    · rcases rd with mediaData | _
      · rcases hs : b.convertAudioToText mediaData with ⟨rs⟩ | _
        · rcases rs with transcript | _
          · rcases ha : b.completion sender transcript with ⟨reply⟩ | _
            · rcases ht : b.convertTextToSpeech reply with ⟨rt⟩ | _
              · rcases rt with audioPath | _
                · exact ⟨[.sendAudioByUrl sender audioPath],
                    by simp [waProcessMessage, hd, hs, ha, ht,
                      generateAIResponse, saveToContext, Trace.emit],
                    by simp [isMarkRead]⟩
                · exact ⟨[], by simp [waProcessMessage, hd, hs, ha, ht,
                    generateAIResponse, saveToContext], by simp⟩
              · exact ⟨[], by simp [waProcessMessage, hd, hs, ha, ht,
                  generateAIResponse, saveToContext], by simp⟩
            · exact ⟨[], by simp [waProcessMessage, hd, hs, ha,
                generateAIResponse, saveToContext], by simp⟩
          · exact ⟨[], by simp [waProcessMessage, hd, hs], by simp⟩
        · exact ⟨[], by simp [waProcessMessage, hd, hs], by simp⟩
      · exact ⟨[], by simp [waProcessMessage, hd], by simp⟩
    · exact ⟨[], by simp [waProcessMessage, hd], by simp⟩
  · exact ⟨[], by simp [waProcessMessage], by simp⟩

/-- Claim C9: a WhatsApp payload with several messages is processed exactly
as the payload containing only its first message — the first is the only one
marked as read, classified, and replied to; the remainder are silently
ignored. -/
theorem c9_first_message_only (b : Backends) (req : WaRequest)
    (m : WaMessage) (rest : List WaMessage)
    (h : req.messages = some (m :: rest)) :
    handleIncomingWhatsappMessage b req Trace.empty =
      handleIncomingWhatsappMessage b ⟨some [m], req.contactName⟩ Trace.empty
    ∧ ((handleIncomingWhatsappMessage b req Trace.empty).1.actions.filter
        isMarkRead) = [.markMessageAsRead m.id] := by
  obtain ⟨l, hl, hf⟩ :=
    waProcess_actions_no_markRead b m (Trace.empty.emit (.markMessageAsRead m.id))
  constructor
  · simp [handleIncomingWhatsappMessage, h]
  · simp [Trace.emit, Trace.empty] at hl
    simp [handleIncomingWhatsappMessage, h, Trace.emit, Trace.empty, hl,
      List.filter_append, hf, isMarkRead]

/-- Witness for C9 on a payload carrying two text messages. -/
theorem c9_first_message_only_witness :
    handleIncomingWhatsappMessage bAllOk waTwoMsgReq Trace.empty =
      handleIncomingWhatsappMessage bAllOk
        ⟨some [⟨"15550001111", "wamid.1", .text "hello"⟩], some "Ada"⟩
        Trace.empty
    ∧ ((handleIncomingWhatsappMessage bAllOk waTwoMsgReq
        Trace.empty).1.actions.filter isMarkRead) =
      [.markMessageAsRead "wamid.1"] :=
  c9_first_message_only bAllOk waTwoMsgReq
    ⟨"15550001111", "wamid.1", .text "hello"⟩
    [⟨"15550002222", "wamid.9", .text "world"⟩] rfl

end SlcBot
